import Mathlib

/-!
Verification development for the tool dispatch core of
`src/mcp_telegram/tools.py`.

The Python source is embedded shallowly:
* argument classes and content items become structures;
* each async handler becomes a function from its arguments and an explicit
  remote-service environment (what the Telegram collaborator delivers at
  each remote call) to a trace of session events together with an
  `Except PyError` outcome, where `Except.error` models a raised Python
  exception escaping the handler;
* the `async with create_client()` block becomes the `withSession`
  combinator: when acquisition succeeds, release happens on both the normal
  and the raising exit of the body;
* the `functools.singledispatch` registry becomes a map keyed by the
  argument-type identity, with the assignment semantics of the stdlib
  (`registry[cls] = func`).
-/

namespace McpTelegram

/-- A raised Python exception, as observable from outside a handler. -/
inductive PyError where
  | connectionError (msg : String)
  | valueError (msg : String)
  | typeError (msg : String)
  | unboundLocalError (name : String)
  | keyError (name : String)
  | notImplementedError (msg : String)
  | osError (msg : String)
  | validationError (msg : String)
deriving DecidableEq, Repr

/-- Python `str(e)` for the exceptions above. -/
def PyError.str : PyError → String
  | .connectionError m => m
  | .valueError m => m
  | .typeError m => m
  | .unboundLocalError n =>
      "cannot access local variable \x27" ++ n ++ "\x27 where it is not associated with a value"
  | .keyError n => "\x27" ++ n ++ "\x27"
  | .notImplementedError m => m
  | .osError m => m
  | .validationError m => m

/-- One observable action on the remote session owned by an invocation. -/
inductive SessionEvent where
  | acquire
  | release
deriving DecidableEq, BEq, Repr

/-- Embedding of `async with create_client() as client: body`.  If entering
the context (connecting) fails, nothing was acquired and the error
propagates; otherwise the session is acquired, the body runs, and the
session is released whether the body returns or raises. -/
def withSession {α : Type} (connect : Except PyError Unit)
    (body : Except PyError α) : List SessionEvent × Except PyError α :=
  match connect with
  | .error e => ([], .error e)
  | .ok _ => ([SessionEvent.acquire, SessionEvent.release], body)

/-- The count of releases in a trace equals the count of acquisitions. -/
def sessionBalanced (events : List SessionEvent) : Prop :=
  events.count SessionEvent.release = events.count SessionEvent.acquire

/-- `mcp.types.TextContent`: the Text variant of the ContentItem union
(the external collaborator type; only its text payload matters here).
Its pydantic field `type` is `Literal["text"]` with no default, hence
required at construction. -/
structure TextContent where
  text : String
deriving DecidableEq, Repr

/-- The `pydantic.ValidationError` raised when `TextContent` is
constructed without its required `type` field. -/
def textContentValidationError : PyError :=
  .validationError "1 validation error for TextContent: type Field required"

/-- Pydantic construction `TextContent(...)`: the caller either supplies
the required `type` field (as `list_dialogs` and `list_messages` do with
`type="text"`) and obtains the content item, or omits it (as both returns
of `search_hashtags` do) and the constructor raises `ValidationError`. -/
def TextContent.construct (ty : Option String) (text : String) :
    Except PyError TextContent :=
  match ty with
  | some _ => .ok ⟨text⟩
  | none => .error textContentValidationError

/-- A dialog as delivered by the remote chat service (telethon
`custom.dialog.Dialog` or a `types.Dialog` inside a `PeerDialogs` reply):
the fields the handlers read.  Unread counts reported by the service are
non-negative. -/
structure Dialog where
  name : String
  id : Int
  unread_count : Nat
  unread_mentions_count : Nat
deriving DecidableEq, Repr

/-- Argument class `ListDialogs(ToolArgs)` with its declared defaults. -/
structure ListDialogs where
  unread : Bool := false
  archived : Bool := false
  ignore_pinned : Bool := false
deriving DecidableEq, Repr

/-- The f-string built for one dialog in `list_dialogs`
(tools.py lines 92 to 95). -/
def dialogLine (dialog : Dialog) : String :=
  "name=\x27" ++ dialog.name ++ "\x27 id=" ++ toString dialog.id ++
    " unread=" ++ toString dialog.unread_count ++
    " mentions=" ++ toString dialog.unread_mentions_count

/-- The `async for dialog in client.iter_dialogs(...)` loop of
`list_dialogs` (tools.py lines 89 to 96): skip a dialog when
`args.unread and dialog.unread_count == 0`, else append its line. -/
def list_dialogs_loop (args : ListDialogs) : List Dialog → List TextContent
  | [] => []
  | dialog :: rest =>
    if args.unread && dialog.unread_count == 0 then
      list_dialogs_loop args rest
    else
      ⟨dialogLine dialog⟩ :: list_dialogs_loop args rest

/-- Handler `list_dialogs` (tools.py lines 79 to 98): the whole body runs
inside `async with create_client()`.  The environment supplies the result
of connecting and the dialogs the service would deliver (`Except.error`
when the remote iteration raises part way). -/
def list_dialogs (connect : Except PyError Unit) (args : ListDialogs)
    (dialogs : Except PyError (List Dialog)) :
    List SessionEvent × Except PyError (List TextContent) :=
  withSession connect (dialogs.map (fun ds => list_dialogs_loop args ds))

/-- Argument class `ListMessages(ToolArgs)` with its declared defaults. -/
structure ListMessages where
  dialog_id : Int
  unread : Bool := false
  limit : Int := 100
deriving DecidableEq, Repr

/-- A message as delivered by the remote service: whether it is an instance
of telethon `custom.Message`, and its text (Python-falsy when empty). -/
structure Message where
  isCustomMessage : Bool := true
  text : String
deriving DecidableEq, Repr

/-- The reply of `GetPeerDialogsRequest`, as inspected by `list_messages`
(tools.py lines 129 to 139): a falsy result, a result of an unexpected
type, or a proper `types.messages.PeerDialogs` carrying dialogs and
messages. -/
inductive PeerDialogsResult where
  | falsy
  | unexpected (tyName : String)
  | peerDialogs (dialogs : List Dialog) (messages : List Message)
deriving DecidableEq, Repr

/-- The limit entry put into `iter_messages_args` by `list_messages`
(tools.py lines 136 and 141 to 148).  The local `dialog` is whatever the
logging loop `for dialog in result.dialogs` left bound, i.e. the last
element of `result.dialogs`; when that loop never ran, reading
`dialog.unread_count` raises `UnboundLocalError`. -/
def iter_messages_limit (args : ListMessages) (dialogs : List Dialog) :
    Except PyError Int :=
  if args.unread then
    match dialogs.getLast? with
    | some dialog => .ok (min (dialog.unread_count : Int) args.limit)
    | none => .error (.unboundLocalError "dialog")
  else
    .ok args.limit

/-- The `async for message in client.iter_messages(...)` loop of
`list_messages` (tools.py lines 151 to 155): append
`TextContent(type="text", text=message.text)` exactly for the delivered
messages that are `custom.Message` instances with truthy text. -/
def messages_to_content : List Message → List TextContent
  | [] => []
  | message :: rest =>
    if message.isCustomMessage && message.text != "" then
      ⟨message.text⟩ :: messages_to_content rest
    else
      messages_to_content rest

/-- What the remote service delivers to one `list_messages` invocation:
the outcome of connecting, the reply to `GetPeerDialogsRequest`, and the
messages `iter_messages` yields for a given limit (an `Except.error` when
a remote call raises). -/
structure ListMessagesEnv where
  connect : Except PyError Unit
  getPeerDialogs : Except PyError PeerDialogsResult
  iter_messages : Int → Except PyError (List Message)

/-- Body of handler `list_messages` inside the session block
(tools.py lines 129 to 157). -/
def list_messages_body (args : ListMessages) (env : ListMessagesEnv) :
    Except PyError (List TextContent) :=
  match env.getPeerDialogs with
  | .error e => .error e
  | .ok .falsy =>
      .error (.valueError ("Channel not found: " ++ toString args.dialog_id))
  | .ok (.unexpected tyName) =>
      .error (.typeError ("Unexpected result: " ++ tyName))
  | .ok (.peerDialogs dialogs _messages) =>
    match iter_messages_limit args dialogs with
    | .error e => .error e
    | .ok limit =>
      match env.iter_messages limit with
      | .error e => .error e
      | .ok delivered => .ok (messages_to_content delivered)

/-- Handler `list_messages` (tools.py lines 120 to 157): the body runs
inside `async with create_client()`. -/
def list_messages (args : ListMessages) (env : ListMessagesEnv) :
    List SessionEvent × Except PyError (List TextContent) :=
  withSession env.connect (list_messages_body args env)

/-- Argument class `SearchHashtags(ToolArgs)` with its declared defaults
(tools.py lines 160 to 167). -/
structure SearchHashtags where
  group_id : Int
  hashtags : List String
  output_format : String := "csv"
  output_file : String := "hashtag_results"
  api_id : Int
  api_hash : String
deriving DecidableEq, Repr

/-- Python substring test `needle in haystack`. -/
def strContains (haystack needle : String) : Bool :=
  haystack.data.tails.any (fun t => needle.data.isPrefixOf t)

/-- The inner hashtag loop for one message (tools.py lines 197 to 208):
a message counts when its text is truthy and some hashtag of the request
occurs, case-insensitively, in the text (the loop breaks at the first
match, so each message is counted at most once). -/
def message_matches (hashtags : List String) (message : Message) : Bool :=
  message.text != "" &&
    hashtags.any (fun hashtag => strContains message.text.toLower hashtag.toLower)

/-- The `total_count` accumulated over the delivered messages
(tools.py lines 193 to 208). -/
def search_total_count (hashtags : List String) : List Message → Nat
  | [] => 0
  | message :: rest =>
    (if message_matches hashtags message then 1 else 0) +
      search_total_count hashtags rest

/-- What the remote service and the filesystem deliver to one
`search_hashtags` invocation: the outcomes of `create_client`,
`get_entity`, the message iteration, and the export file write.  Building
the export records and their file format is the excluded export
collaborator; only its success or failure is visible to the control flow
modelled here. -/
structure SearchHashtagsEnv where
  create_client : Except PyError Unit
  get_entity : Except PyError Unit
  iter_messages : Except PyError (List Message)
  write_output : Except PyError Unit

/-- The success message of `search_hashtags` (tools.py lines 228 to 232). -/
def search_success_text (args : SearchHashtags) (total_count : Nat) : String :=
  "Successfully exported " ++ toString total_count ++ " messages with hashtags " ++
    String.intercalate ", " args.hashtags ++ " to " ++
    args.output_file ++ "." ++ args.output_format

/-- The `try` block of `search_hashtags` (tools.py lines 184 to 232).  The
client is connected with a bare `await create_client()` and disconnected
only by the `await client.disconnect()` on the success path: an exception
raised after connecting leaves the session open when the block is
abandoned.  The return on the success path constructs
`TextContent(text=...)` WITHOUT the required `type` field (line 229),
after the disconnect: evaluating it raises `ValidationError` inside the
try block. -/
def search_hashtags_try (args : SearchHashtags) (env : SearchHashtagsEnv) :
    List SessionEvent × Except PyError (List TextContent) :=
  match env.create_client with
  | .error e => ([], .error e)
  | .ok _ =>
    match env.get_entity with
    | .error e => ([SessionEvent.acquire], .error e)
    | .ok _ =>
      match env.iter_messages with
      | .error e => ([SessionEvent.acquire], .error e)
      | .ok msgs =>
        let total_count := search_total_count args.hashtags msgs
        match env.write_output with
        | .error e => ([SessionEvent.acquire], .error e)
        | .ok _ =>
          match TextContent.construct none (search_success_text args total_count) with
          | .error e => ([SessionEvent.acquire, SessionEvent.release], .error e)
          | .ok item =>
              ([SessionEvent.acquire, SessionEvent.release], .ok [item])

/-- Handler `search_hashtags` (tools.py lines 181 to 238): the whole body
is wrapped in `try ... except Exception as e`, and the except clause
tries to return a normal single-item response carrying the error text
instead of re-raising.  That response is again a `TextContent(text=...)`
without the required `type` field (line 236), so building it raises a
fresh `ValidationError`, which propagates out of the handler in place of
the caught failure. -/
def search_hashtags (args : SearchHashtags) (env : SearchHashtagsEnv) :
    List SessionEvent × Except PyError (List TextContent) :=
  match search_hashtags_try args env with
  | (events, .ok response) => (events, .ok response)
  | (events, .error e) =>
      match TextContent.construct none ("Error searching hashtags: " ++ e.str) with
      | .error e2 => (events, .error e2)
      | .ok item => (events, .ok [item])

/-- The dispatch registry of `functools.singledispatch` behind
`tool_runner` (tools.py lines 49 to 53), keyed by argument-type
identity. -/
abbrev Registry (H : Type) : Type := String → Option H

/-- The registry before any `@tool_runner.register` ran. -/
def emptyRegistry (H : Type) : Registry H := fun _ => none

/-- One `@tool_runner.register` call: the stdlib stores the handler with
`registry[cls] = func`, a plain dictionary assignment. -/
def register {H : Type} (reg : Registry H) (tyName : String) (handler : H) :
    Registry H :=
  fun key => if key = tyName then some handler else reg key

/-- Dispatching `tool_runner(args)`: an unregistered argument type falls
through to the base implementation, which raises
`NotImplementedError(f"Unsupported type: ...")` (tools.py line 53). -/
def dispatch {H : Type} (reg : Registry H) (tyName : String) :
    Except PyError H :=
  match reg tyName with
  | some handler => .ok handler
  | none => .error (.notImplementedError ("Unsupported type: " ++ tyName))

/-- One field of a pydantic model schema, as enumerated by
`model_json_schema()`: its name and whether it is required. -/
structure FieldSpec where
  name : String
  required : Bool
deriving DecidableEq, Repr

/-- The reflective data `tool_description` reads off a `ToolArgs`
subclass: its `__name__`, its `__doc__` (None when the class has no doc
string), and its schema fields. -/
structure ToolArgsType where
  declName : String
  doc : Option String
  fields : List FieldSpec
deriving DecidableEq, Repr

/-- `mcp.types.Tool`, restricted to the parts `tool_description` fills
in: name, description (optional in the collaborator type) and input
schema. -/
structure Tool where
  name : String
  description : Option String
  inputSchema : List FieldSpec
deriving DecidableEq, Repr

/-- `tool_description` (tools.py lines 56 to 61): a plain projection of
the class data into a `Tool`, with no validation of the doc string. -/
def tool_description (args : ToolArgsType) : Tool :=
  { name := args.declName
    description := args.doc
    inputSchema := args.fields }

/-- `tool_args` (tools.py lines 64 to 65): look the tool name up in the
module dictionary `sys.modules[__name__].__dict__` and call whatever
object is bound there with the supplied arguments; a missing key makes the
subscript raise `KeyError`. -/
def tool_args {V : Type}
    (moduleDict : List (String × (List (String × String) → Except PyError V)))
    (toolName : String) (kwargs : List (String × String)) :
    Except PyError V :=
  match moduleDict.lookup toolName with
  | some callable => callable kwargs
  | none => .error (.keyError toolName)

/-- Every name bound at module level in `tools.py`: the `__future__`
import, the imported modules and names, and the definitions of the module
itself. -/
def moduleNames : List String :=
  ["annotations", "logging", "sys", "t", "singledispatch",
   "EmbeddedResource", "ImageContent", "TextContent", "Tool",
   "BaseModel", "ConfigDict", "TelegramClient", "custom", "functions",
   "types", "create_client", "logger", "ToolArgs",
   "tool_runner", "tool_description", "tool_args",
   "ListDialogs", "list_dialogs", "ListMessages", "list_messages",
   "SearchHashtags", "search_hashtags"]

/-- The argument types actually registered with `tool_runner.register`. -/
def registeredToolNames : List String :=
  ["ListDialogs", "ListMessages", "SearchHashtags"]

/-- Reflective data of class `ListDialogs` (tools.py lines 71 to 76). -/
def ListDialogsType : ToolArgsType :=
  { declName := "ListDialogs"
    doc := some "List available dialogs, chats and channels."
    fields := [⟨"unread", false⟩, ⟨"archived", false⟩, ⟨"ignore_pinned", false⟩] }

/-- Reflective data of class `ListMessages` (tools.py lines 104 to 117). -/
def ListMessagesType : ToolArgsType :=
  { declName := "ListMessages"
    doc := some ("\n    List messages in a given dialog, chat or channel. The messages are listed in order from newest to oldest.\n\n    If `unread` is set to `True`, only unread messages will be listed. Once a message is read, it will not be\n    listed again.\n\n    If `limit` is set, only the last `limit` messages will be listed. If `unread` is set, the limit will be\n    the minimum between the unread messages and the limit.\n    ")
    fields := [⟨"dialog_id", true⟩, ⟨"unread", false⟩, ⟨"limit", false⟩] }

/-- Reflective data of class `SearchHashtags` (tools.py lines 160 to 167):
its schema declares the Telegram API credentials `api_id` and `api_hash`
as required per-call arguments. -/
def SearchHashtagsType : ToolArgsType :=
  { declName := "SearchHashtags"
    doc := some "Search for specific hashtags in a Telegram group and export results to CSV."
    fields := [⟨"group_id", true⟩, ⟨"hashtags", true⟩, ⟨"output_format", false⟩,
               ⟨"output_file", false⟩, ⟨"api_id", true⟩, ⟨"api_hash", true⟩] }

/-- The reflective data of all registered argument types. -/
def registeredToolTypes : List ToolArgsType :=
  [ListDialogsType, ListMessagesType, SearchHashtagsType]

/-- The per-call credential arguments the spec rules out of request
payloads (spec section 9: credential provisioning belongs to the Session
Provider configuration). -/
def credentialFieldNames : List String := ["api_id", "api_hash"]

/-- Modelled from the spec, section 4.5, for comparison only: the
effective fetch limit described there is the minimum of the unread count
of THE REQUESTED dialog (the one resolved from `dialogId`) and the limit
when `unreadOnly` is set, else the limit; `none` when the requested dialog
is not among the delivered ones.  `iter_messages_limit` above is the
definition taken from the source. -/
def effective_limit_spec (args : ListMessages) (dialogs : List Dialog) :
    Option Int :=
  if args.unread then
    (dialogs.find? (fun dialog => dialog.id == args.dialog_id)).map
      (fun dialog => min (dialog.unread_count : Int) args.limit)
  else
    some args.limit

/-- Whether an embedded Python step completed without raising. -/
def stepOk {ε α : Type} : Except ε α → Bool
  | .ok _ => true
  | .error _ => false

/-- A middle factor of a concatenation is an infix of it. -/
theorem infix_of_middle {α : Type} (pre mid post : List α) :
    mid <:+: pre ++ (mid ++ post) :=
  (List.prefix_append mid post).isInfix.trans
    (List.suffix_append pre (mid ++ post)).isInfix

/-- Infixes are preserved by extending the list on the left. -/
theorem infix_append_left {α : Type} (pre : List α) {mid r : List α}
    (h : mid <:+: r) : mid <:+: pre ++ r :=
  h.trans (List.suffix_append pre r).isInfix

/-- C3 counterexample: registering a second handler for the argument-type
identity "ListDialogs" does not fail; the registry afterwards returns the
second handler, so the first binding was silently overwritten. -/
theorem register_overwrites_silently :
    register (register (emptyRegistry Nat) "ListDialogs" 1) "ListDialogs" 2
      "ListDialogs" = some 2 := by
  simp [register]

/-- C3 amended: registering a handler for an argument-type identity that
is already bound does not fail at startup; the dictionary assignment of
singledispatch silently replaces the existing binding, and the resulting
registry is indistinguishable from one where only the second registration
happened. -/
theorem register_last_wins {H : Type} (reg : Registry H)
    (tyName key : String) (h1 h2 : H) :
    register (register reg tyName h1) tyName h2 key =
      register reg tyName h2 key := by
  by_cases h : key = tyName <;> simp [register, h]

/-- A ToolArgs class whose doc string is empty. -/
def EmptyDocType : ToolArgsType :=
  { declName := "EmptyDoc", doc := some "", fields := [] }

/-- C7 counterexample: deriving a descriptor from a spec type with an
empty doc string succeeds and yields a descriptor carrying the empty
description; nothing rejects it at definition time. -/
theorem tool_description_accepts_empty_doc :
    tool_description EmptyDocType =
      { name := "EmptyDoc", description := some "", inputSchema := [] } ∧
    (tool_description EmptyDocType).description = some "" :=
  ⟨rfl, rfl⟩

/-- C7 amended: descriptor derivation copies the declared identifier into
the name, the doc text into the description and the schema fields into the
input schema, for every spec type; an empty or missing doc string is
accepted unchanged, with no definition-time validation. -/
theorem tool_description_is_projection (args : ToolArgsType) :
    (tool_description args).name = args.declName ∧
    (tool_description args).description = args.doc ∧
    (tool_description args).inputSchema = args.fields :=
  ⟨rfl, rfl, rfl⟩

/-- C8: the registered tool SearchHashtags declares the per-call
credential arguments api_id and api_hash in its argument schema, against
the stated invariant that credential provisioning never appears in a
request payload. -/
theorem search_hashtags_schema_contains_credentials :
    SearchHashtagsType ∈ registeredToolTypes ∧
    "api_id" ∈ SearchHashtagsType.fields.map FieldSpec.name ∧
    "api_hash" ∈ SearchHashtagsType.fields.map FieldSpec.name ∧
    "api_id" ∈ credentialFieldNames ∧
    "api_hash" ∈ credentialFieldNames := by
  refine ⟨?_, ?_, ?_, ?_, ?_⟩ <;>
    simp [registeredToolTypes, SearchHashtagsType, credentialFieldNames,
      ListDialogsType, ListMessagesType, FieldSpec.name]

/-- C9: tool_args looks the supplied name up in the whole module
dictionary and calls whatever object is bound there; a name missing from
the module dictionary raises KeyError, not a structured unknown-tool
error.  The module namespace is strictly larger than the set of
registered argument types: it binds, among others, ToolArgs itself. -/
theorem tool_args_resolves_module_namespace {V : Type}
    (moduleDict : List (String × (List (String × String) → Except PyError V)))
    (toolName : String) (kwargs : List (String × String))
    (callable : List (String × String) → Except PyError V)
    (hfound : moduleDict.lookup toolName = some callable) :
    tool_args moduleDict toolName kwargs = callable kwargs ∧
    (∀ missing : String, moduleDict.lookup missing = none →
      tool_args moduleDict missing kwargs = .error (.keyError missing)) ∧
    "ToolArgs" ∈ moduleNames ∧
    "ToolArgs" ∉ registeredToolNames := by
  refine ⟨?_, ?_, ?_, ?_⟩
  · simp [tool_args, hfound]
  · intro missing hmiss
    simp [tool_args, hmiss]
  · simp [moduleNames]
  · decide

/-- A module dictionary binding only the non-tool name ToolArgs. -/
def sampleModuleDict :
    List (String × (List (String × String) → Except PyError Nat)) :=
  [("ToolArgs", fun _ => .ok 0)]

/-- Witness for C9 at a concrete module dictionary: the non-tool binding
ToolArgs is called, and missing names raise KeyError. -/
theorem tool_args_resolves_module_namespace_witness :
    tool_args sampleModuleDict "ToolArgs" [] = .ok 0 ∧
    (∀ missing : String, sampleModuleDict.lookup missing = none →
      tool_args sampleModuleDict missing [] = .error (.keyError missing)) ∧
    "ToolArgs" ∈ moduleNames ∧
    "ToolArgs" ∉ registeredToolNames :=
  tool_args_resolves_module_namespace sampleModuleDict "ToolArgs" []
    (fun _ => .ok 0) rfl

/-- C10: the unread limit of list_messages is read from the loop variable
left over by the logging loop, i.e. from the last element of
result.dialogs: with unread set, an empty dialogs sequence makes the body
raise UnboundLocalError, and with several dialogs the last one determines
the limit regardless of which dialog matches args.dialog_id. -/
theorem list_messages_limit_from_last_dialog
    (args : ListMessages) (env : ListMessagesEnv) (d : Dialog)
    (msgs : List Message)
    (hu : args.unread = true)
    (hpeer : env.getPeerDialogs = .ok (.peerDialogs [] msgs)) :
    list_messages_body args env = .error (.unboundLocalError "dialog") ∧
    (∀ rest : List Dialog,
      iter_messages_limit args (rest ++ [d]) =
        .ok (min (d.unread_count : Int) args.limit)) := by
  constructor
  · simp [list_messages_body, hpeer, iter_messages_limit, hu]
  · intro rest
    simp [iter_messages_limit, hu, List.getLast?_concat]

/-- An environment whose PeerDialogs reply carries no dialog at all. -/
def emptyDialogsEnv : ListMessagesEnv :=
  { connect := .ok ()
    getPeerDialogs := .ok (.peerDialogs [] [])
    iter_messages := fun _ => .ok [] }

/-- Witness for C10: dialog_id 42 with unread and limit 10 against an
empty dialogs reply raises UnboundLocalError, and appending a final dialog
with unread count 7 always makes the limit min 7 10. -/
theorem list_messages_limit_from_last_dialog_witness :
    list_messages_body ⟨42, true, 10⟩ emptyDialogsEnv =
      .error (.unboundLocalError "dialog") ∧
    (∀ rest : List Dialog,
      iter_messages_limit ⟨42, true, 10⟩ (rest ++ [⟨"other", 99, 7, 1⟩]) =
        .ok (min ((7 : Nat) : Int) 10)) :=
  list_messages_limit_from_last_dialog ⟨42, true, 10⟩ emptyDialogsEnv
    ⟨"other", 99, 7, 1⟩ [] rfl rfl

/-- C4 counterexample: the service delivers two dialogs, the one matching
dialog_id 42 reporting 3 unread, the trailing unrelated one reporting 7;
the limit handed to the message iteration is min 7 10 = 7, not the
min 3 10 = 3 that the claim computes from the unread count of the
requested dialog. -/
theorem effective_limit_uses_wrong_dialog :
    iter_messages_limit ⟨42, true, 10⟩
      [⟨"target", 42, 3, 0⟩, ⟨"other", 99, 7, 1⟩] = .ok 7 ∧
    effective_limit_spec ⟨42, true, 10⟩
      [⟨"target", 42, 3, 0⟩, ⟨"other", 99, 7, 1⟩] = some 3 ∧
    (7 : Int) ≠ 3 :=
  ⟨rfl, rfl, by decide⟩

/-- C4 amended: the fetch limit equals args.limit when args.unread is
false, and when args.unread is true it equals the minimum of args.limit
and the unread count of the LAST dialog of the delivered sequence (which
is the requested dialog only when it happens to be delivered last, e.g.
when it is the only one). -/
theorem iter_messages_limit_characterization
    (args : ListMessages) (dialogs : List Dialog) (d : Dialog)
    (hlast : dialogs.getLast? = some d) :
    (args.unread = true →
      iter_messages_limit args dialogs =
        .ok (min (d.unread_count : Int) args.limit)) ∧
    (args.unread = false →
      iter_messages_limit args dialogs = .ok args.limit) := by
  constructor <;> intro h <;> simp [iter_messages_limit, h, hlast]

/-- Witness for C4 as amended, matching the spec example: a single
delivered dialog for id 42 with 3 unread and limit 10 gives limit
min 3 10, and with unread unset the limit is args.limit. -/
theorem iter_messages_limit_characterization_witness :
    (((⟨42, true, 10⟩ : ListMessages).unread = true →
      iter_messages_limit ⟨42, true, 10⟩ [⟨"target", 42, 3, 0⟩] =
        .ok (min ((3 : Nat) : Int) 10)) ∧
    ((⟨42, true, 10⟩ : ListMessages).unread = false →
      iter_messages_limit ⟨42, true, 10⟩ [⟨"target", 42, 3, 0⟩] = .ok 10)) :=
  iter_messages_limit_characterization ⟨42, true, 10⟩
    [⟨"target", 42, 3, 0⟩] ⟨"target", 42, 3, 0⟩ rfl

/-- C5: over any delivered message sequence consisting of custom.Message
instances, the loop of list_messages returns exactly one Text item per
message with non-empty text, carrying that text, in the delivered order:
it is the filter to text-bearing messages followed by the map to Text
content, with no re-sorting. -/
theorem list_messages_preserves_text_and_order (msgs : List Message)
    (h : ∀ m ∈ msgs, m.isCustomMessage = true) :
    messages_to_content msgs =
      (msgs.filter (fun m => m.text != "")).map
        (fun m => ⟨m.text⟩) := by
  induction msgs with
  | nil => rfl
  | cons m rest ih =>
    have hm : m.isCustomMessage = true := h m (List.mem_cons_self m rest)
    have hrest : ∀ x ∈ rest, x.isCustomMessage = true :=
      fun x hx => h x (List.mem_cons_of_mem m hx)
    by_cases ht : m.text = ""
    · simp [messages_to_content, hm, ht, List.filter_cons, ih hrest]
    · simp [messages_to_content, hm, ht, List.filter_cons, ih hrest]

/-- Witness for C5 on a concrete newest-to-oldest delivery: the empty-text
message is dropped, the others map to Text items in order. -/
theorem list_messages_preserves_text_and_order_witness :
    messages_to_content
        [⟨true, "newest"⟩, ⟨true, ""⟩, ⟨true, "oldest"⟩] =
      (([⟨true, "newest"⟩, ⟨true, ""⟩, ⟨true, "oldest"⟩] :
            List Message).filter
          (fun m => m.text != "")).map (fun m => ⟨m.text⟩) :=
  list_messages_preserves_text_and_order
    [⟨true, "newest"⟩, ⟨true, ""⟩, ⟨true, "oldest"⟩] (by decide)

/-- C6: with unread set, list_dialogs keeps exactly the delivered dialogs
whose unread count is strictly positive, in iteration order, one line per
kept dialog; and every line contains the name, the id, the unread count
and the mention count of its dialog. -/
theorem list_dialogs_unread_filter_lines
    (args : ListDialogs) (dialogs : List Dialog)
    (hu : args.unread = true) :
    list_dialogs_loop args dialogs =
      (dialogs.filter (fun d => decide (0 < d.unread_count))).map
        (fun d => ⟨dialogLine d⟩) ∧
    (∀ d : Dialog,
      d.name.data <:+: (dialogLine d).data ∧
      (toString d.id).data <:+: (dialogLine d).data ∧
      (toString d.unread_count).data <:+: (dialogLine d).data ∧
      (toString d.unread_mentions_count).data <:+: (dialogLine d).data) := by
  constructor
  · induction dialogs with
    | nil => rfl
    | cons d rest ih =>
      rcases Nat.eq_zero_or_pos d.unread_count with h0 | hpos
      · simp [list_dialogs_loop, hu, h0, List.filter_cons, ih]
      · have hne : d.unread_count ≠ 0 := Nat.pos_iff_ne_zero.mp hpos
        simp [list_dialogs_loop, hu, hne, hpos, List.filter_cons, ih]
  · intro d
    refine ⟨?_, ?_, ?_, ?_⟩
    · simp only [dialogLine, String.data_append, List.append_assoc]
      exact infix_of_middle _ _ _
    · simp only [dialogLine, String.data_append, List.append_assoc]
      exact infix_append_left _ (infix_append_left _ (infix_of_middle _ _ _))
    · simp only [dialogLine, String.data_append, List.append_assoc]
      exact infix_append_left _ (infix_append_left _ (infix_append_left _
        (infix_append_left _ (infix_of_middle _ _ _))))
    · simp only [dialogLine, String.data_append, List.append_assoc]
      exact infix_append_left _ (infix_append_left _ (infix_append_left _
        (infix_append_left _ (infix_append_left _ (infix_append_left _
          (List.suffix_append _ _).isInfix)))))

/-- The spec example for listDialogs: three conversations with unread
counts 0, 5 and 2. -/
def exampleDialogs : List Dialog :=
  [⟨"a", 1, 0, 0⟩, ⟨"b", 2, 5, 1⟩, ⟨"c", 3, 2, 0⟩]

/-- Witness for C6 on the spec example: only the two dialogs with positive
unread count produce lines, in order, and the line of the second dialog
contains its name, id, unread count and mention count. -/
theorem list_dialogs_unread_filter_lines_witness :
    list_dialogs_loop ⟨true, false, false⟩ exampleDialogs =
      (exampleDialogs.filter (fun d => decide (0 < d.unread_count))).map
        (fun d => ⟨dialogLine d⟩) ∧
    ((⟨"b", 2, 5, 1⟩ : Dialog).name.data <:+:
        (dialogLine ⟨"b", 2, 5, 1⟩).data ∧
      (toString (⟨"b", 2, 5, 1⟩ : Dialog).id).data <:+:
        (dialogLine ⟨"b", 2, 5, 1⟩).data ∧
      (toString (⟨"b", 2, 5, 1⟩ : Dialog).unread_count).data <:+:
        (dialogLine ⟨"b", 2, 5, 1⟩).data ∧
      (toString (⟨"b", 2, 5, 1⟩ : Dialog).unread_mentions_count).data <:+:
        (dialogLine ⟨"b", 2, 5, 1⟩).data) :=
  ⟨(list_dialogs_unread_filter_lines ⟨true, false, false⟩ exampleDialogs rfl).1,
    (list_dialogs_unread_filter_lines ⟨true, false, false⟩ exampleDialogs rfl).2
      ⟨"b", 2, 5, 1⟩⟩

/-- The SearchHashtags arguments of the schema example in the source. -/
def exampleSearchArgs : SearchHashtags :=
  { group_id := -1001234567890
    hashtags := ["#intro"]
    api_id := 26162406
    api_hash := "7a005c82feee57d782a7e2f8399ddaf6" }

/-- An invocation where connecting succeeds and resolving the group
entity raises. -/
def entityFailureEnv : SearchHashtagsEnv :=
  { create_client := .ok ()
    get_entity := .error (.valueError "Cannot find any entity corresponding to -1001234567890")
    iter_messages := .ok []
    write_output := .ok () }

/-- C1 counterexample: when get_entity raises after the client was
connected, the search_hashtags invocation returns with one session
acquired and none released: the acquired session is not closed on this
exit path. -/
theorem search_hashtags_leaks_session :
    (search_hashtags exampleSearchArgs entityFailureEnv).1.count
        SessionEvent.acquire = 1 ∧
    (search_hashtags exampleSearchArgs entityFailureEnv).1.count
        SessionEvent.release = 0 :=
  ⟨rfl, rfl⟩

/-- C1 amended: list_dialogs and list_messages run their bodies inside
the scoped session block, so on every exit path, normal or raising, the
number of releases equals the number of acquisitions; search_hashtags
balances its session exactly when connecting fails (nothing acquired) or
when every step up to and including the export write succeeds, and on
every failure after the connection the acquired session is left open. -/
theorem session_release_characterization
    (connect : Except PyError Unit) (dargs : ListDialogs)
    (dialogs : Except PyError (List Dialog))
    (margs : ListMessages) (menv : ListMessagesEnv)
    (hargs : SearchHashtags) (henv : SearchHashtagsEnv) :
    sessionBalanced (list_dialogs connect dargs dialogs).1 ∧
    sessionBalanced (list_messages margs menv).1 ∧
    (sessionBalanced (search_hashtags hargs henv).1 ↔
      (stepOk henv.create_client = false ∨
        (stepOk henv.get_entity = true ∧ stepOk henv.iter_messages = true ∧
          stepOk henv.write_output = true))) := by
  refine ⟨?_, ?_, ?_⟩
  · cases connect <;> simp [list_dialogs, withSession, sessionBalanced]
    decide
  · rcases menv with ⟨mc, mp, mi⟩
    cases mc <;> simp [list_messages, withSession, sessionBalanced]
    decide
  · rcases henv with ⟨cc, ge, im, wo⟩
    cases cc <;> cases ge <;> cases im <;> cases wo <;>
      simp [search_hashtags, search_hashtags_try, sessionBalanced, stepOk,
        TextContent.construct] <;>
      decide

/-- Every exit of the search_hashtags try block that is not already a
raised failure evaluates a TextContent construction missing its required
type field, and the except clause does the same; so the handler always
surfaces that ValidationError, whatever the environment did. -/
theorem search_hashtags_always_validation_error
    (args : SearchHashtags) (env : SearchHashtagsEnv) :
    (search_hashtags args env).2 = .error textContentValidationError := by
  rcases env with ⟨cc, ge, im, wo⟩
  cases cc <;> cases ge <;> cases im <;> cases wo <;>
    simp [search_hashtags, search_hashtags_try, TextContent.construct]

/-- C2 counterexample: with an internal failure (get_entity raising a
ValueError), the search_hashtags handler catches it, and what leaves the
handler is not that failure but the ValidationError raised by the except
clause building TextContent without its required type field: the arising
failure does not propagate out of the handler. -/
theorem search_hashtags_swallows_failure :
    entityFailureEnv.get_entity =
      .error (.valueError "Cannot find any entity corresponding to -1001234567890") ∧
    (search_hashtags exampleSearchArgs entityFailureEnv).2 =
      .error textContentValidationError ∧
    (search_hashtags exampleSearchArgs entityFailureEnv).2 ≠
      .error (.valueError "Cannot find any entity corresponding to -1001234567890") := by
  refine ⟨rfl, rfl, ?_⟩
  intro h
  exact absurd (Except.error.inj h) (by decide)

/-- C2 amended: list_dialogs and list_messages let every internal failure
escape to the dispatch envelope unchanged.  search_hashtags catches every
failure of its try block and attempts to convert it into a textual
response, but both of its TextContent constructions omit the required
type field, so the conversion itself raises: the original failure is
swallowed and a pydantic ValidationError surfaces in its place, and no
search_hashtags invocation ever returns a response. -/
theorem failure_propagation_characterization
    (dargs : ListDialogs) (e : PyError)
    (margs : ListMessages) (menv : ListMessagesEnv)
    (hargs : SearchHashtags) (henv : SearchHashtagsEnv)
    (hmc : menv.connect = .ok ()) :
    (list_dialogs (.ok ()) dargs (.error e)).2 = .error e ∧
    (list_messages_body margs menv = .error e →
      (list_messages margs menv).2 = .error e) ∧
    ((search_hashtags_try hargs henv).2 = .error e →
      (search_hashtags hargs henv).2 = .error textContentValidationError) ∧
    (∀ response : List TextContent,
      (search_hashtags hargs henv).2 ≠ .ok response) := by
  refine ⟨?_, ?_, ?_, ?_⟩
  · simp [list_dialogs, withSession, Except.map]
  · intro h
    simp [list_messages, withSession, hmc, h]
  · intro _
    exact search_hashtags_always_validation_error hargs henv
  · intro response
    rw [search_hashtags_always_validation_error hargs henv]
    simp

/-- Witness for C2 as amended at concrete inputs: the propagation facts
for list_dialogs and list_messages, and for search_hashtags the
replacement of the caught failure by the construction ValidationError
together with the absence of any returned response, instantiated with the
entity-failure environment. -/
theorem failure_propagation_characterization_witness :
    (list_dialogs (.ok ()) ⟨true, false, false⟩
        (.error (.valueError "boom"))).2 = .error (.valueError "boom") ∧
    (list_messages_body ⟨42, true, 10⟩ emptyDialogsEnv =
        .error (.valueError "boom") →
      (list_messages ⟨42, true, 10⟩ emptyDialogsEnv).2 =
        .error (.valueError "boom")) ∧
    ((search_hashtags_try exampleSearchArgs entityFailureEnv).2 =
        .error (.valueError "boom") →
      (search_hashtags exampleSearchArgs entityFailureEnv).2 =
        .error textContentValidationError) ∧
    (∀ response : List TextContent,
      (search_hashtags exampleSearchArgs entityFailureEnv).2 ≠
        .ok response) :=
  failure_propagation_characterization ⟨true, false, false⟩
    (.valueError "boom") ⟨42, true, 10⟩ emptyDialogsEnv
    exampleSearchArgs entityFailureEnv rfl

end McpTelegram
